import Mathlib

/-!
Verification development for the TaroWebSite tarot-reading backends.

The repository has two HTTP backend variants:
* `backend_Gemeni/app.py` — a streaming remote variant that forwards
  server-sent events: one metadata event, then text-fragment events,
  then a terminal sentinel;
* `backend_localLAMA/app.py` — a synchronous local-runner variant that
  detects the query language, translates non-English queries to English,
  runs a local model off the event loop, strips stop sequences and
  whitespace from the answer, and translates it back when needed.

Strings are modelled by Lean `String`; where character-level processing
matters (stop-sequence truncation, whitespace stripping) the character
list `List Char` of the string is used.  Helper code of the repository
that is not part of the provided sources (`translator.py`, `layout.py`)
and the external generation libraries are either modelled from the spec
(marked as such) or kept abstract as function parameters.
-/

namespace Taro

/-! ## Events of the streaming (Gemeni) variant -/

/-- One server-sent event of the streaming variant
(`backend_Gemeni/app.py`, `event_stream`): the initial metadata event,
a text-fragment event carrying one answer chunk, or the terminal
sentinel. -/
inductive Event where
  | meta (option query : String) (cards : List String) (language : String)
  | chunkEv (text : String)
  | done
deriving DecidableEq, Repr

def isMetaEv : Event → Bool
  | .meta _ _ _ _ => true
  | _ => false

def isChunkEv : Event → Bool
  | .chunkEv _ => true
  | _ => false

def isDoneEv : Event → Bool
  | .done => true
  | _ => false

def chunkText? : Event → Option String
  | .chunkEv t => some t
  | _ => none

/-- `event_stream` of `backend_Gemeni/app.py` (lines 67–92) on the
successful path: yields the initial metadata, then one chunk event per
remote chunk whose text is non-empty (`if chunk.text:`), then the
terminal sentinel.  The remote stream is modelled as the list of chunk
texts it produces, with `""` standing for an absent/falsy text. -/
def eventStream (option query : String) (cards : List String)
    (language : String) (chunks : List String) : List Event :=
  Event.meta option query cards language ::
    ((chunks.filter (fun c => c ≠ "")).map Event.chunkEv ++ [Event.done])

/-- `backend_Gemeni/app.py` lines 20–30: `api_key = os.getenv(...)`;
the client is absent when the key is unset, empty or blank
(`if not api_key or api_key.strip() == "": client = None`). -/
def notApiKeyConfigured (apiKey : Option String) : Bool :=
  match apiKey with
  | none => true
  | some k => k == "" || k.trim == ""

/-- The module-level `client` value: `none` when no usable credential is
configured, otherwise the remote service, modelled by the list of chunk
texts it would stream back. -/
def mkClient (apiKey : Option String) (svc : List String) :
    Option (List String) :=
  if notApiKeyConfigured apiKey then none else some svc

/-- A run of the `event_stream` generator: the list of events actually
emitted, paired with a flag recording whether the generator aborted with
an error.  When `client` is `None`, the first `yield` of the metadata
event happens, and then the attribute access
`client.models.generate_content_stream` raises, so exactly the metadata
event is emitted and the stream aborts; with a client present the full
successful stream is emitted. -/
def eventStreamRun (client : Option (List String)) (option query : String)
    (cards : List String) (language : String) : List Event × Bool :=
  match client with
  | none => ([Event.meta option query cards language], true)
  | some chunks => (eventStream option query cards language chunks, false)

/-! ## Language detection -/

/-- The character class of the regex `[а-яА-ЯёЁ]` in
`backend_Gemeni/app.py` line 65. -/
def matchesRuClass (c : Char) : Bool :=
  (0x430 ≤ c.toNat && c.toNat ≤ 0x44F) ||
    (0x410 ≤ c.toNat && c.toNat ≤ 0x42F) ||
    c.toNat == 0x451 || c.toNat == 0x401

/-- `len(re.findall(r'[а-яА-ЯёЁ]', query))` of line 65. -/
def cyrillicCount (q : String) : Nat :=
  (q.toList.filter matchesRuClass).length

/-- Lines 65–66 of `backend_Gemeni/app.py`:
`language = "ru" if cyrillic > 0 else "en"`. -/
def detectLanguageGemini (q : String) : String :=
  if 0 < cyrillicCount q then "ru" else "en"

/-- A character of the Unicode Cyrillic block (U+0400–U+04FF); this is
the spec-side notion of "a Cyrillic character", used to compare the
spec's wording with the code's regex class. -/
def isCyrillic (c : Char) : Bool :=
  0x400 ≤ c.toNat && c.toNat ≤ 0x4FF

/-- A character of the Latin script as used by the spec's
"purely Latin-script query" (Basic Latin through Latin Extended-B,
U+0000–U+024F, which contains all Latin letters, digits, punctuation). -/
def isLatinScript (c : Char) : Bool :=
  c.toNat ≤ 0x24F

/-- CYRILLIC SMALL LETTER BYELORUSSIAN-UKRAINIAN I (U+0456): a Cyrillic
character outside the regex class `[а-яА-ЯёЁ]`. -/
def ukrainianI : Char := Char.ofNat 0x456

/-- Modelled from the spec: `translator.detect_language` of
`backend_localLAMA/app.py` (the file `translator.py` is not among the
provided sources).  "Detection heuristic: presence of any character in
the source language's script (for the two supported languages, Cyrillic
vs. Latin) is sufficient signal". -/
def detect_language (q : String) : String :=
  if q.toList.any isCyrillic then "ru" else "en"

/-! ## Request validation (FastAPI `Query` constraints) -/

/-- The anchored pattern `^(linear|balance|advice)$` on the `option`
query parameter of both variants. -/
def optionOk (option : String) : Bool :=
  option == "linear" || option == "balance" || option == "advice"

/-- Validation of `backend_localLAMA/app.py` lines 57–59:
pattern plus `min_length=1, max_length=500` on `query`. -/
def validLocal (option query : String) : Bool :=
  optionOk option && decide (1 ≤ query.length) && decide (query.length ≤ 500)

/-- Validation of `backend_Gemeni/app.py` lines 58–60:
pattern plus `min_length=10, max_length=500` on `query`. -/
def validGemini (option query : String) : Bool :=
  optionOk option && decide (10 ≤ query.length) && decide (query.length ≤ 500)

/-- How a request handler can fail: rejected input (HTTP 400/422) or a
server-side fault (HTTP 5xx). -/
inductive ReqError where
  | invalidInput
  | internalError
deriving DecidableEq, Repr

/-! ## The local runner: stop sequences and whitespace stripping -/

/-- Whether some stop sequence starts right at the head of `raw`. -/
def hitsStop (stops : List (List Char)) (raw : List Char) : Bool :=
  stops.any (fun s => s.isPrefixOf raw)

/-- Modelled from the spec: the effect of the `stop` list passed to the
local runner in `backend_localLAMA/app.py` lines 78–85 — the runner
itself is an external library; per the spec, "stop sequences terminate
generation early and are stripped from the returned text".  The output
is the prefix of the raw generation that precedes the first occurrence
of any stop sequence. -/
def truncAtStop (stops : List (List Char)) : List Char → List Char
  | [] => []
  | c :: rest =>
    if hitsStop stops (c :: rest) then []
    else c :: truncAtStop stops rest

/-- The `stop` list of `backend_localLAMA/app.py` lines 78–85. -/
def stopTokens : List (List Char) :=
  ["</s>".toList, "[INST]".toList, "Question:".toList, "Cards:".toList,
   "\n\n\n\n".toList, "QUESTION:".toList]

/-- An ASCII whitespace character as removed by Python's `str.strip()`
(space, tab, newline, carriage return, vertical tab, form feed). -/
def wsChar (c : Char) : Bool :=
  c.toNat = 32 || c.toNat = 9 || c.toNat = 10 || c.toNat = 13 ||
    c.toNat = 11 || c.toNat = 12

/-- Python's `str.strip()` on the character list: drop whitespace from
the front, then from the back (`backend_localLAMA/app.py` line 87). -/
def pyStrip (l : List Char) : List Char :=
  ((l.dropWhile wsChar).reverse.dropWhile wsChar).reverse

/-! ## Per-layout decoding parameters -/

/-- Digit-string parsing shared by the models of Python's `int()` and
`float()` on the decimal configuration values used here. -/
def digitsToNat? (l : List Char) : Option Nat :=
  if l ≠ [] ∧ l.all Char.isDigit then
    some (l.foldl (fun a c => 10 * a + (c.toNat - 48)) 0)
  else none

/-- Python's `int(s)` on a plain decimal numeral. -/
def parseNat? (s : String) : Option Nat :=
  digitsToNat? s.toList

/-- An exact decimal number `mantissa / 10 ^ scale`, the value Python's
`float()` produces on the plain decimal configuration strings used here
(`"0.7"`, `"0.85"`, `"1.15"`, `"800"`). -/
structure Dec where
  mantissa : Nat
  scale : Nat
deriving DecidableEq, Repr

/-- The rational value of an exact decimal. -/
def Dec.toRat (d : Dec) : ℚ :=
  (d.mantissa : ℚ) / (10 : ℚ) ^ d.scale

/-- Python's `float(s)` on a plain decimal numeral, as an exact
decimal. -/
def parseDec? (s : String) : Option Dec :=
  match s.toList.splitOn '.' with
  | [i] => (digitsToNat? i).map (fun n => ⟨n, 0⟩)
  | [i, f] =>
    match digitsToNat? i, digitsToNat? f with
    | some ni, some nf => some ⟨ni * 10 ^ f.length + nf, f.length⟩
    | _, _ => none
  | _ => none

/-- The decoding parameters resolved in
`backend_localLAMA/app.py` lines 73–77. -/
structure GenParams where
  max_new_tokens : Nat
  temperature : Dec
  top_k : Nat
  top_p : Dec
  repetition_penalty : Dec
deriving DecidableEq, Repr

/-- The environment key `f"{option.upper()}_<suffixPart>"` used by the
per-layout configuration lookups. -/
def envKey (option suffixPart : String) : String :=
  String.mk (option.toList.map Char.toUpper) ++ suffixPart

/-- `os.getenv(key, default)`: the configured value when present,
otherwise the documented default. -/
def getenvD (env : String → Option String) (key dflt : String) : String :=
  (env key).getD dflt

/-- Lines 73–77 of `backend_localLAMA/app.py`: each decoding parameter
is looked up under a key derived from the layout name, falling back to
the documented default (`800`, `0.7`, `25`, `0.85`, `1.15`); a
non-numeric configured value makes `int()`/`float()` raise `ValueError`,
modelled by `none`. -/
def resolveParams (env : String → Option String) (option : String) :
    Option GenParams :=
  match parseNat? (getenvD env (envKey option "_MAX_NEW_TOKENS") "800"),
        parseDec? (getenvD env (envKey option "_TEMPERATURE") "0.7"),
        parseNat? (getenvD env (envKey option "_TOP_K") "25"),
        parseDec? (getenvD env (envKey option "_TOP_P") "0.85"),
        parseDec? (getenvD env (envKey option "_REPETITION_PENALTY") "1.15") with
  | some a, some b, some c, some d, some e => some ⟨a, b, c, d, e⟩
  | _, _, _, _, _ => none

/-! ## The local-runner request handler -/

/-- The parts of `layout.TarotModel` the handlers read: the drawn cards
and the synthesized prompt.  `layout.py` is not among the provided
sources, and the claims below do not depend on its contents, so the
model constructor is kept abstract as a function parameter. -/
structure TarotM where
  cards : List String
  prompt : String

/-- The response model `TarotResponse` of `backend_localLAMA/app.py`
lines 49–54.  The answer is kept as the character list of the string,
since the claims are about its character-level shape. -/
structure LocalResponse where
  option : String
  query : String
  cards : List String
  answer : List Char
  language : String
deriving DecidableEq, Repr

/-- `get_tarot_reading` of `backend_localLAMA/app.py` lines 56–99.
`toEn` and `toRu` stand for `translator.translate_query_to_english` and
`translator.translate_response_to_russian` (not among the provided
sources), `tm` for the `TarotModel` constructor, `gen` for the raw text
the local model produces from a prompt and decoding parameters, and
`env` for the process environment.  The handler validates the request,
detects the language, translates a non-English query to English before
building the model, resolves the decoding parameters from the
environment once, runs the generator with stop sequences, strips the
result, translates it back when needed, and builds the response. -/
def localHandler (toEn : String → String) (toRu : List Char → List Char)
    (tm : String → String → TarotM)
    (gen : String → GenParams → List Char)
    (env : String → Option String)
    (option query : String) : Except ReqError LocalResponse :=
  if validLocal option query then
    let lang := detect_language query
    let q := if lang ≠ "en" then toEn query else query
    let m := tm option q
    match resolveParams env option with
    | none => Except.error ReqError.invalidInput
    | some ps =>
      let answer0 := pyStrip (truncAtStop stopTokens (gen m.prompt ps))
      let answer := if lang ≠ "en" then toRu answer0 else answer0
      Except.ok ⟨option, q, m.cards, answer, lang⟩
  else Except.error ReqError.invalidInput

/-- `get_tarot_reading` of `backend_Gemeni/app.py` lines 57–94: after
validation, the handler draws the spread, detects the language and
returns the streaming response, whose run of emitted events is
`eventStreamRun` of the configured client. -/
def geminiHandler (tm : String → String → TarotM)
    (apiKey : Option String) (svc : List String)
    (option query : String) : Except ReqError (List Event × Bool) :=
  if validGemini option query then
    let m := tm option query
    Except.ok (eventStreamRun (mkClient apiKey svc) option query m.cards
      (detectLanguageGemini query))
  else Except.error ReqError.invalidInput

/-! ## General lemmas about truncation and stripping -/

/-- The truncated generation output is a prefix of the raw output. -/
theorem truncAtStop_isPre (stops : List (List Char)) :
    ∀ raw : List Char, truncAtStop stops raw <+: raw := by
  intro raw
  induction raw with
  | nil => simp [truncAtStop]
  | cons c rest ih =>
    simp only [truncAtStop]
    by_cases h : hitsStop stops (c :: rest) = true
    · simp [h]
    · rw [if_neg h]
      obtain ⟨t, ht⟩ := ih
      exact ⟨t, by rw [List.cons_append, ht]⟩

/-- No nonempty stop sequence occurs in the truncated generation
output: the output stops strictly before the first occurrence. -/
theorem truncAtStop_stop_free (stops : List (List Char)) :
    ∀ raw s : List Char, s ∈ stops → s ≠ [] →
      ¬ s <:+: truncAtStop stops raw := by
  intro raw
  induction raw with
  | nil =>
    intro s _ hne hinf
    simp only [truncAtStop] at hinf
    exact hne (List.infix_nil.mp hinf)
  | cons c rest ih =>
    intro s hs hne hinf
    simp only [truncAtStop] at hinf
    by_cases h : hitsStop stops (c :: rest) = true
    · rw [if_pos h] at hinf
      exact hne (List.infix_nil.mp hinf)
    · rw [if_neg h] at hinf
      rcases List.infix_cons_iff.mp hinf with hpre | hinf2
      · have h1 : c :: truncAtStop stops rest <+: c :: rest := by
          obtain ⟨t, ht⟩ := truncAtStop_isPre stops rest
          exact ⟨t, by rw [List.cons_append, ht]⟩
        have h2 : s <+: c :: rest := hpre.trans h1
        have h3 := List.isPrefixOf_iff_prefix.mpr h2
        have h4 : hitsStop stops (c :: rest) = true := by
          unfold hitsStop
          rw [List.any_eq_true]
          exact ⟨s, hs, h3⟩
        exact h h4
      · exact ih s hs hne hinf2

/-- The stripped string is a prefix of the front-stripped string. -/
theorem pyStrip_isPre_dropWhile (l : List Char) :
    pyStrip l <+: l.dropWhile wsChar := by
  unfold pyStrip
  have h1 : (l.dropWhile wsChar).reverse.dropWhile wsChar <:+
      (l.dropWhile wsChar).reverse := List.dropWhile_suffix wsChar
  have h2 := List.reverse_prefix.mpr h1
  rwa [List.reverse_reverse] at h2

/-- The stripped string is an infix of the original string. -/
theorem pyStrip_isInf (l : List Char) : pyStrip l <:+: l :=
  (pyStrip_isPre_dropWhile l).isInfix.trans (List.dropWhile_suffix wsChar).isInfix

/-- A nonempty prefix shares its head with the longer list. -/
theorem head?_of_isPre {l m : List Char} {c : Char} (h : l <+: m)
    (hc : l.head? = some c) : m.head? = some c := by
  obtain ⟨t, ht⟩ := h
  subst ht
  cases l with
  | nil => simp at hc
  | cons a l' => simpa using hc

/-- The first character of a stripped string is not whitespace. -/
theorem pyStrip_head (l : List Char) (c : Char)
    (hc : (pyStrip l).head? = some c) : wsChar c = false := by
  have h1 : (l.dropWhile wsChar).head? = some c :=
    head?_of_isPre (pyStrip_isPre_dropWhile l) hc
  have h2 := List.head?_dropWhile_not wsChar l
  rw [h1] at h2
  exact h2

/-- The last character of a stripped string is not whitespace. -/
theorem pyStrip_getLast (l : List Char) (c : Char)
    (hc : (pyStrip l).getLast? = some c) : wsChar c = false := by
  unfold pyStrip at hc
  rw [List.getLast?_reverse] at hc
  have h2 := List.head?_dropWhile_not wsChar (l.dropWhile wsChar).reverse
  rw [hc] at h2
  exact h2

/-- Every configured stop sequence is nonempty. -/
theorem stopTokens_ne_nil : ∀ s ∈ stopTokens, s ≠ [] := by decide

/-! ## Run lemmas for the handlers -/

/-- A valid request whose query is detected as non-English runs the
whole translate-out / generate / translate-back pipeline. -/
theorem localHandler_ru_run (toEn : String → String)
    (toRu : List Char → List Char) (tm : String → String → TarotM)
    (gen : String → GenParams → List Char) (env : String → Option String)
    (option query : String) (ps : GenParams)
    (hv : validLocal option query = true)
    (hl : detect_language query ≠ "en")
    (hp : resolveParams env option = some ps) :
    localHandler toEn toRu tm gen env option query =
      Except.ok ⟨option, toEn query, (tm option (toEn query)).cards,
        toRu (pyStrip (truncAtStop stopTokens
          (gen (tm option (toEn query)).prompt ps))),
        detect_language query⟩ := by
  unfold localHandler
  rw [hv]
  simp only [if_true, hp, if_pos hl]

/-- A valid request whose query is detected as English skips both
translation steps. -/
theorem localHandler_en_run (toEn : String → String)
    (toRu : List Char → List Char) (tm : String → String → TarotM)
    (gen : String → GenParams → List Char) (env : String → Option String)
    (option query : String) (ps : GenParams)
    (hv : validLocal option query = true)
    (hl : detect_language query = "en")
    (hp : resolveParams env option = some ps) :
    localHandler toEn toRu tm gen env option query =
      Except.ok ⟨option, query, (tm option query).cards,
        pyStrip (truncAtStop stopTokens (gen (tm option query).prompt ps)),
        "en"⟩ := by
  unfold localHandler
  rw [hv]
  simp only [if_true, hp, hl, ne_eq, not_true_eq_false, if_false]

/-- Zero matches of the Russian character class is the same as no
character of the query matching it. -/
theorem cyrillicCount_pos_iff (q : String) :
    0 < cyrillicCount q ↔ q.toList.any matchesRuClass = true := by
  unfold cyrillicCount
  rw [List.length_pos, Ne, List.filter_eq_nil_iff, List.any_eq_true]
  push_neg
  simp

/-- A Latin-script character is outside the regex class `[а-яА-ЯёЁ]`. -/
theorem latin_not_ruClass (c : Char) (h : isLatinScript c = true) :
    matchesRuClass c = false := by
  unfold isLatinScript at h
  unfold matchesRuClass
  simp only [decide_eq_true_eq] at h
  simp only [Bool.or_eq_false_iff, Bool.and_eq_false_iff,
    decide_eq_false_iff_not, not_le, beq_eq_false_iff_ne, ne_eq]
  omega

/-! ## Claim theorems -/

/-- C1: for every successful request to the streaming variant, the
emitted event sequence starts with exactly one metadata event carrying
the layout, the query, the drawn cards and the detected language, is
followed by text-fragment events whose texts are exactly the non-empty
answer chunks in order, and ends with exactly one terminal sentinel —
even when there are zero text fragments. -/
theorem C1_stream_shape (option query language : String)
    (cards : List String) (chunks : List String) :
    (eventStream option query cards language chunks).head?
        = some (Event.meta option query cards language)
    ∧ (eventStream option query cards language chunks).getLast?
        = some Event.done
    ∧ (eventStream option query cards language chunks).countP isMetaEv = 1
    ∧ (eventStream option query cards language chunks).countP isDoneEv = 1
    ∧ (eventStream option query cards language chunks).filterMap chunkText?
        = chunks.filter (fun c => c ≠ "") := by
  unfold eventStream
  refine ⟨rfl, ?_, ?_, ?_, ?_⟩
  · rw [← List.cons_append, List.getLast?_concat]
  · simp [List.countP_cons, List.countP_append, List.countP_map,
      isMetaEv, Function.comp_def]
  · simp [List.countP_cons, List.countP_append, List.countP_map,
      isDoneEv, Function.comp_def]
  · simp [List.filterMap_cons, List.filterMap_append, List.filterMap_map,
      chunkText?, Function.comp_def]

/-- C2 counterexample: with no API credential configured the claim
fails — the handler still accepts the request, the stream emits the
metadata event and then aborts without ever emitting the terminal
sentinel, i.e. a partial event stream is emitted and no distinct
backend-unavailable error is raised up front. -/
theorem C2_counterexample :
    notApiKeyConfigured none = true
    ∧ geminiHandler (fun _ q => ⟨["The Sun"], q⟩) none ["mystic"]
        "linear" "Should I take the new job?"
      = Except.ok ([Event.meta "linear" "Should I take the new job?"
          ["The Sun"] "en"], true)
    ∧ Event.done ∉ [Event.meta "linear" "Should I take the new job?"
        ["The Sun"] "en"] :=
  ⟨rfl, rfl, by decide⟩

/-- C2 (amended): when no API credential is configured the client is
absent, so the remote generation stream is never obtained; the request
is not failed fast, however — the event stream starts, emits exactly
the metadata event, and then aborts with a generic error, so a partial
stream (metadata without the terminal sentinel) is emitted. -/
theorem C2_no_credential_partial_stream (apiKey : Option String)
    (svc : List String) (option query language : String)
    (cards : List String) (h : notApiKeyConfigured apiKey = true) :
    mkClient apiKey svc = none
    ∧ eventStreamRun (mkClient apiKey svc) option query cards language
        = ([Event.meta option query cards language], true) := by
  have hm : mkClient apiKey svc = none := by
    unfold mkClient
    rw [h]
    rfl
  exact ⟨hm, by rw [hm]; rfl⟩

/-- C2 witness: the amended statement at a concrete unset credential. -/
theorem C2_no_credential_partial_stream_witness :
    mkClient none ["mystic"] = none
    ∧ eventStreamRun (mkClient none ["mystic"]) "linear" "query?"
        ["The Sun"] "en"
      = ([Event.meta "linear" "query?" ["The Sun"] "en"], true) :=
  C2_no_credential_partial_stream none ["mystic"] "linear" "query?" "en"
    ["The Sun"] rfl

/-- C3 counterexample: the Cyrillic letter і (U+0456) lies in the
Unicode Cyrillic block but outside the regex class `[а-яА-ЯёЁ]`, so a
query containing a Cyrillic character is classified as the default
language "en", against the claim. -/
theorem C3_counterexample_detection :
    isCyrillic ukrainianI = true
    ∧ (String.mk [ukrainianI]).toList.any isCyrillic = true
    ∧ detectLanguageGemini (String.mk [ukrainianI]) = "en" := by
  decide

/-- C3 (amended): language detection classifies a query containing at
least one character of the Russian Cyrillic alphabet (а–я, А–Я, ё, Ё)
as "ru", and a query containing none of these — in particular every
purely Latin-script query — as the default "en". -/
theorem C3_detect_script (q : String) :
    (q.toList.any matchesRuClass = true → detectLanguageGemini q = "ru")
    ∧ (q.toList.all (fun c => !matchesRuClass c) = true →
        detectLanguageGemini q = "en")
    ∧ (q.toList.all isLatinScript = true → detectLanguageGemini q = "en") := by
  refine ⟨?_, ?_, ?_⟩
  · intro h
    unfold detectLanguageGemini
    rw [if_pos ((cyrillicCount_pos_iff q).mpr h)]
  · intro h
    unfold detectLanguageGemini
    rw [if_neg]
    intro hpos
    obtain ⟨c, hc, hmc⟩ := List.any_eq_true.mp ((cyrillicCount_pos_iff q).mp hpos)
    have := List.all_eq_true.mp h c hc
    simp [hmc] at this
  · intro h
    unfold detectLanguageGemini
    rw [if_neg]
    intro hpos
    obtain ⟨c, hc, hmc⟩ := List.any_eq_true.mp ((cyrillicCount_pos_iff q).mp hpos)
    have := latin_not_ruClass c (List.all_eq_true.mp h c hc)
    rw [this] at hmc
    exact Bool.false_ne_true hmc

/-- C3 witness: the amended statement at a Russian and at a purely
Latin query. -/
theorem C3_detect_script_witness :
    detectLanguageGemini "привет" = "ru"
    ∧ detectLanguageGemini "hello" = "en" :=
  ⟨(C3_detect_script "привет").1 (by decide),
   (C3_detect_script "hello").2.2 (by decide)⟩

/-- C4: for every accepted local-runner request whose query is detected
as non-English, the query is translated to English before the
generation call (the prompt is built from the translated query), the
generated answer is translated back before being returned, and the
returned language tag is the originally detected language. -/
theorem C4_translation_roundtrip (toEn : String → String)
    (toRu : List Char → List Char) (tm : String → String → TarotM)
    (gen : String → GenParams → List Char) (env : String → Option String)
    (option query : String) (ps : GenParams)
    (hv : validLocal option query = true)
    (hl : detect_language query ≠ "en")
    (hp : resolveParams env option = some ps) :
    localHandler toEn toRu tm gen env option query =
      Except.ok ⟨option, toEn query, (tm option (toEn query)).cards,
        toRu (pyStrip (truncAtStop stopTokens
          (gen (tm option (toEn query)).prompt ps))),
        detect_language query⟩ :=
  localHandler_ru_run toEn toRu tm gen env option query ps hv hl hp

/-- C4 witness: a concrete Cyrillic request through the pipeline with
concrete stub translators, spread and generator. -/
theorem C4_translation_roundtrip_witness :
    localHandler (fun _ => "what to do") (fun l => l ++ "!".toList)
      (fun _ q => ⟨["The Sun"], q⟩) (fun _ _ => " ok answer ".toList)
      (fun _ => none) "advice" "Что делать"
    = Except.ok ⟨"advice", "what to do", ["The Sun"],
        "ok answer!".toList, "ru"⟩ :=
  C4_translation_roundtrip (fun _ => "what to do") (fun l => l ++ "!".toList)
    (fun _ q => ⟨["The Sun"], q⟩) (fun _ _ => " ok answer ".toList)
    (fun _ => none) "advice" "Что делать" ⟨800, ⟨7, 1⟩, 25, ⟨85, 2⟩, ⟨115, 2⟩⟩
    (by decide) (by decide) (by decide)

/-- C5: every accepted local-runner request produces an answer with all
stop sequences removed and leading/trailing whitespace trimmed; for an
English-detected query the caller receives exactly that cleaned answer,
and for a non-English query its back-translation. -/
theorem C5_answer_stops_trimmed (toEn : String → String)
    (toRu : List Char → List Char) (tm : String → String → TarotM)
    (gen : String → GenParams → List Char) (env : String → Option String)
    (option query : String) (ps : GenParams)
    (hv : validLocal option query = true)
    (hp : resolveParams env option = some ps) :
    ∃ r a0, localHandler toEn toRu tm gen env option query = Except.ok r
    ∧ (∀ s ∈ stopTokens, ¬ s <:+: a0)
    ∧ (∀ c, a0.head? = some c → wsChar c = false)
    ∧ (∀ c, a0.getLast? = some c → wsChar c = false)
    ∧ r.answer = (if detect_language query = "en" then a0 else toRu a0) := by
  have props : ∀ raw : List Char,
      (∀ s ∈ stopTokens, ¬ s <:+: pyStrip (truncAtStop stopTokens raw))
      ∧ (∀ c, (pyStrip (truncAtStop stopTokens raw)).head? = some c →
          wsChar c = false)
      ∧ (∀ c, (pyStrip (truncAtStop stopTokens raw)).getLast? = some c →
          wsChar c = false) := by
    intro raw
    refine ⟨?_, ?_, ?_⟩
    · intro s hs hinf
      exact truncAtStop_stop_free stopTokens raw s hs (stopTokens_ne_nil s hs)
        (hinf.trans (pyStrip_isInf _))
    · intro c hc
      exact pyStrip_head _ c hc
    · intro c hc
      exact pyStrip_getLast _ c hc
  by_cases hl : detect_language query = "en"
  · obtain ⟨p1, p2, p3⟩ := props (gen (tm option query).prompt ps)
    exact ⟨_, pyStrip (truncAtStop stopTokens (gen (tm option query).prompt ps)),
      localHandler_en_run toEn toRu tm gen env option query ps hv hl hp,
      p1, p2, p3, by rw [if_pos hl]⟩
  · obtain ⟨p1, p2, p3⟩ := props (gen (tm option (toEn query)).prompt ps)
    exact ⟨_,
      pyStrip (truncAtStop stopTokens (gen (tm option (toEn query)).prompt ps)),
      localHandler_ru_run toEn toRu tm gen env option query ps hv hl hp,
      p1, p2, p3, by rw [if_neg hl]⟩

/-- C5 witness: a concrete English request whose raw generation carries
a stop sequence and surrounding whitespace. -/
theorem C5_answer_stops_trimmed_witness :
    ∃ r a0, localHandler (fun q => q) (fun l => l)
        (fun _ q => ⟨["The Sun"], q⟩) (fun _ _ => " ok Cards: zz".toList)
        (fun _ => none) "linear" "hello there"
      = Except.ok r
    ∧ (∀ s ∈ stopTokens, ¬ s <:+: a0)
    ∧ (∀ c, a0.head? = some c → wsChar c = false)
    ∧ (∀ c, a0.getLast? = some c → wsChar c = false)
    ∧ r.answer = (if detect_language "hello there" = "en" then a0 else a0) :=
  C5_answer_stops_trimmed (fun q => q) (fun l => l)
    (fun _ q => ⟨["The Sun"], q⟩) (fun _ _ => " ok Cards: zz".toList)
    (fun _ => none) "linear" "hello there"
    ⟨800, ⟨7, 1⟩, 25, ⟨85, 2⟩, ⟨115, 2⟩⟩ (by decide) (by decide)

/-- C6: every decoding parameter of the local runner is resolved from
configuration keyed by the layout name; when no override is configured
for that layout, the documented defaults 800, 0.7, 25, 0.85 and 1.15
are used (the handler performs this resolution once per request, at the
single `resolveParams` call site of `localHandler`). -/
theorem C6_default_params (env : String → Option String) (option : String)
    (h1 : env (envKey option "_MAX_NEW_TOKENS") = none)
    (h2 : env (envKey option "_TEMPERATURE") = none)
    (h3 : env (envKey option "_TOP_K") = none)
    (h4 : env (envKey option "_TOP_P") = none)
    (h5 : env (envKey option "_REPETITION_PENALTY") = none) :
    resolveParams env option = some ⟨800, ⟨7, 1⟩, 25, ⟨85, 2⟩, ⟨115, 2⟩⟩
    ∧ Dec.toRat ⟨7, 1⟩ = 7 / 10
    ∧ Dec.toRat ⟨85, 2⟩ = 85 / 100
    ∧ Dec.toRat ⟨115, 2⟩ = 115 / 100 := by
  refine ⟨?_, ?_, ?_, ?_⟩
  · unfold resolveParams getenvD
    rw [h1, h2, h3, h4, h5]
    decide
  · unfold Dec.toRat
    norm_num
  · unfold Dec.toRat
    norm_num
  · unfold Dec.toRat
    norm_num

/-- C6 witness: the defaults at an empty environment and the `linear`
layout. -/
theorem C6_default_params_witness :
    resolveParams (fun _ => none) "linear"
      = some ⟨800, ⟨7, 1⟩, 25, ⟨85, 2⟩, ⟨115, 2⟩⟩
    ∧ Dec.toRat ⟨7, 1⟩ = 7 / 10
    ∧ Dec.toRat ⟨85, 2⟩ = 85 / 100
    ∧ Dec.toRat ⟨115, 2⟩ = 115 / 100 :=
  C6_default_params (fun _ => none) "linear" rfl rfl rfl rfl rfl

/-- C7 counterexample: the claim fails on the remote variant — the
non-empty five-character query "short" is within the 500-character
upper bound and the layout is recognized, yet the remote variant
rejects it, because its validation requires at least 10 characters;
the local variant accepts it. -/
theorem C7_counterexample :
    "short" ≠ ""
    ∧ "short".length ≤ 500
    ∧ optionOk "linear" = true
    ∧ validGemini "linear" "short" = false
    ∧ geminiHandler (fun _ q => ⟨["The Sun"], q⟩) (some "key") ["c"]
        "linear" "short" = Except.error ReqError.invalidInput
    ∧ validLocal "linear" "short" = true :=
  ⟨by decide, by decide, by decide, by decide, rfl, by decide⟩

/-- C7 (amended): for every recognized layout, the local variant
accepts every non-empty query of at most 500 characters; the remote
variant additionally requires the query to be at least 10 characters
long, and accepts every such query. -/
theorem C7_accept_bounds (option query : String)
    (ho : optionOk option = true) (h1 : 1 ≤ query.length)
    (h2 : query.length ≤ 500) :
    validLocal option query = true
    ∧ (10 ≤ query.length → validGemini option query = true) := by
  constructor
  · unfold validLocal
    rw [ho]
    simp [h1, h2]
  · intro h10
    unfold validGemini
    rw [ho]
    simp [h10, h2]

/-- C7 witness: the amended statement at a concrete accepted query. -/
theorem C7_accept_bounds_witness :
    validLocal "linear" "Should I take the new job?" = true
    ∧ validGemini "linear" "Should I take the new job?" = true :=
  ⟨(C7_accept_bounds "linear" "Should I take the new job?"
      (by decide) (by decide) (by decide)).1,
   (C7_accept_bounds "linear" "Should I take the new job?"
      (by decide) (by decide) (by decide)).2 (by decide)⟩

/-- C8: every layout name outside {linear, balance, advice} is rejected
as invalid input by both variants, whatever the card model, translator,
generator, environment, credential or query — in particular no spread
is drawn and no partial result reaches the caller. -/
theorem C8_unrecognized_layout (toEn : String → String)
    (toRu : List Char → List Char) (tm : String → String → TarotM)
    (gen : String → GenParams → List Char) (env : String → Option String)
    (apiKey : Option String) (svc : List String) (option query : String)
    (h : option ∉ (["linear", "balance", "advice"] : List String)) :
    geminiHandler tm apiKey svc option query
        = Except.error ReqError.invalidInput
    ∧ localHandler toEn toRu tm gen env option query
        = Except.error ReqError.invalidInput := by
  simp only [List.mem_cons, List.mem_singleton, not_or,
    List.not_mem_nil, not_false_iff, and_true] at h
  have ho : optionOk option = false := by
    unfold optionOk
    simp [h.1, h.2.1, h.2.2]
  constructor
  · unfold geminiHandler validGemini
    rw [ho]
    simp
  · unfold localHandler validLocal
    rw [ho]
    simp

/-- C8 witness: the unrecognized layout "circular" is rejected by both
variants with concrete collaborators. -/
theorem C8_unrecognized_layout_witness :
    geminiHandler (fun _ q => ⟨["The Sun"], q⟩) (some "key") ["c"]
        "circular" "Should I take the new job?"
      = Except.error ReqError.invalidInput
    ∧ localHandler (fun q => q) (fun l => l) (fun _ q => ⟨["The Sun"], q⟩)
        (fun _ _ => "ok".toList) (fun _ => none) "circular"
        "Should I take the new job?"
      = Except.error ReqError.invalidInput :=
  C8_unrecognized_layout (fun q => q) (fun l => l)
    (fun _ q => ⟨["The Sun"], q⟩) (fun _ _ => "ok".toList) (fun _ => none)
    (some "key") ["c"] "circular" "Should I take the new job?" (by decide)

/-- C9: in the local-runner variant, when the detected query language
is not English, the `query` field of the returned response holds the
English-translated query, not the caller's original string. -/
theorem C9_query_overwritten (toEn : String → String)
    (toRu : List Char → List Char) (tm : String → String → TarotM)
    (gen : String → GenParams → List Char) (env : String → Option String)
    (option query : String) (ps : GenParams)
    (hv : validLocal option query = true)
    (hl : detect_language query ≠ "en")
    (hp : resolveParams env option = some ps) :
    ∃ r, localHandler toEn toRu tm gen env option query = Except.ok r
    ∧ r.query = toEn query
    ∧ (toEn query ≠ query → r.query ≠ query) :=
  ⟨_, localHandler_ru_run toEn toRu tm gen env option query ps hv hl hp,
    rfl, fun hne => hne⟩

/-- C9 witness: a concrete Cyrillic request whose response echoes the
translated query rather than the original. -/
theorem C9_query_overwritten_witness :
    ∃ r, localHandler (fun _ => "what to do") (fun l => l)
        (fun _ q => ⟨["The Sun"], q⟩) (fun _ _ => "ok".toList)
        (fun _ => none) "advice" "Что делать"
      = Except.ok r
    ∧ r.query = "what to do"
    ∧ ("what to do" ≠ "Что делать" → r.query ≠ "Что делать") :=
  C9_query_overwritten (fun _ => "what to do") (fun l => l)
    (fun _ q => ⟨["The Sun"], q⟩) (fun _ _ => "ok".toList) (fun _ => none)
    "advice" "Что делать" ⟨800, ⟨7, 1⟩, 25, ⟨85, 2⟩, ⟨115, 2⟩⟩
    (by decide) (by decide) (by decide)

end Taro
